import Mathlib

/-!
Verification of the conjure relay/station core against its specification.

The development shallowly embeds the two Go source files of the repository:

* `src/application/main.go` — ZMQ registration ingest (`recieve_zmq_message`,
  `get_zmq_updates`), the connection dispatcher (`handleNewConn`) and the
  surrounding registration bookkeeping.
* `src/application/detector/main.go` — the passive detector
  (`handlePacket`, `checkForTags`, `generateFilters`, `DetectorStats`).

Byte buffers are embedded as `List Nat` (each element a byte value; `% 256`
is applied where the code reads multi-byte integers).  The helper library
`./lib` (RegistrationManager, ProxyFactory, generateKeys, PhantomIsLive) is
not part of the repository sources; the definitions standing in for it are
marked `Modelled from the spec:` in their doc comments.
-/

namespace Conjure

/-- Semantics of Go `bytes.Reader.Read(dest)`: copy `min (length dest)
(length src)` bytes from the reader into the front of `dest`, leaving the
rest of `dest` unchanged, and advance the reader.  Returns the updated
destination buffer and the remaining unread bytes.  Errors (`io.EOF`) are
ignored by the source code and therefore not modelled. -/
def readInto (dest src : List Nat) : List Nat × List Nat :=
  let n := min dest.length src.length
  (src.take n ++ dest.drop n, src.drop n)

/-- Embedding of `binary.BigEndian.Uint16(l[0:2])`: big-endian 16-bit read of the first
two bytes (high byte first); each byte clamped to its 8-bit value. -/
def bigEndian16 (l : List Nat) : Nat :=
  (l.headD 0 % 256) * 256 + (l.getD 1 0 % 256)

/-- The record produced by the live decode path of `recieve_zmq_message`
(src/application/main.go lines 98-132): the contents of the local buffers
`sharedSecret`, the decoded `vspSize`, the payload buffer
`clientToStationBytes`, and the `flags` byte (which the code declares but
never fills, so it keeps its zero value). -/
structure DecodeOk where
  sharedSecret : List Nat
  vspSize : Nat
  clientToStationBytes : List Nat
  flags : Nat
  deriving Repr, DecidableEq

/-- Result of the decode step: either the short-message rejection carrying
the offending length, or the populated record. -/
inductive DecodeResult where
  | shortMessage (n : Nat) : DecodeResult
  | ok (r : DecodeOk) : DecodeResult
  deriving Repr, DecidableEq

/-- Whether the decode step failed with `ShortMessage`. -/
def DecodeResult.isShort : DecodeResult → Bool
  | .shortMessage _ => true
  | .ok _ => false

/-- The decoded big-endian payload-length field (0 on rejection). -/
def DecodeResult.vsp : DecodeResult → Nat
  | .shortMessage _ => 0
  | .ok r => r.vspSize

/-- The shared-secret buffer handed to key derivation ([] on rejection). -/
def DecodeResult.secret : DecodeResult → List Nat
  | .shortMessage _ => []
  | .ok r => r.sharedSecret

/-- The flags value as left by the decode step (0 on rejection). -/
def DecodeResult.flagsOut : DecodeResult → Nat
  | .shortMessage _ => 0
  | .ok r => r.flags

/-- Embedding of the reachable decode path of `recieve_zmq_message`
(src/application/main.go lines 98-132), applied to an already received
message `msg`.  The code:

* rejects as short when `len(msg) < 32 + 6 + 1 + 16`;
* reads 32 bytes into `sharedSecret`, 6 bytes into `fixedSizePayload`,
  then (as written on line 116) reads into `sharedSecret[:]` a second
  time, overwriting the secret with the following bytes of the message;
* decodes `vspSize` big-endian from `fixedSizePayload[0:2]`;
* reads up to `vspSize` bytes into the zero-initialised payload buffer
  with no check that `vspSize` bytes actually remain;
* never reads into `flags`, which stays zero.

The unreachable second half of the Go function (after its `return`) is not
modelled. -/
def recieve_zmq_message (msg : List Nat) : DecodeResult :=
  if msg.length < 32 + 6 + 1 + 16 then
    .shortMessage msg.length
  else
    let r1 := readInto (List.replicate 32 0) msg
    let r2 := readInto (List.replicate 6 0) r1.2
    let r3 := readInto r1.1 r2.2
    let vspSize := bigEndian16 r2.1
    let r4 := readInto (List.replicate vspSize 0) r3.2
    .ok ⟨r3.1, vspSize, r4.1, 0⟩

/-- The registration record (`dd.DecoyRegistration` built at
src/application/main.go lines 130 and 172-177).  The struct itself lives in
the `./lib` package, which is not among the repository sources; fields are
taken from the literal at lines 172-177 (`Covert`, `Mask`, `Flags`) plus,
modelled from the spec's data model (§3), the `phantomAddress` key and the
`derivedKeys` material.  Addresses and key material are byte lists. -/
structure DecoyRegistration where
  phantomAddress : List Nat
  Covert : List Nat
  Mask : List Nat
  Flags : Nat
  derivedKeys : List Nat
  deriving Repr, DecidableEq

/-- Modelled from the spec: `KeyDeriver.derive` / `dd.generateKeys` (in the
missing `./lib` package).  "Deterministic, pure function of the secret;
fails only on malformed secret length" (§4.2); the derivation internals are
explicitly out of the spec's scope, so the expansion is an arbitrary fixed
deterministic function of a 32-byte secret. -/
def generateKeys (s : List Nat) : Option (List Nat) :=
  if s.length = 32 then some (s ++ s) else none

/-- Modelled from the spec: `RegistrationManager.NewRegistration` (in the
missing `./lib` package): "builds the value; does not insert it" (§4.3),
from the decoded client request record, the derived keys and the flags.
The phantom address is carried by the client request record; it is
modelled as the record bytes themselves. -/
def NewRegistration (clientToStation : List Nat) (conjureKeys : List Nat)
    (flags : Nat) : DecoyRegistration :=
  { phantomAddress := clientToStation
    Covert := []
    Mask := []
    Flags := flags
    derivedKeys := conjureKeys }

/-- The registration table owned by the RegistrationManager, embedded as
the list of live registrations in insertion order. -/
abbrev RegTable := List DecoyRegistration

/-- Modelled from the spec: `DecoyRegistration.PhantomIsLive` (in the
missing `./lib` package): whether the registration's phantom address
currently has a live registration in the table (§3 "Liveness"; expiry is
time-based and not modelled, so live = present). -/
def PhantomIsLive (table : RegTable) (reg : DecoyRegistration) : Bool :=
  table.any fun r => r.phantomAddress = reg.phantomAddress

/-- Modelled from the spec: `RegistrationManager.AddRegistration` (in the
missing `./lib` package): inserts the registration into the table (§4.3);
the liveness admission check is performed by the caller in
`get_zmq_updates`. -/
def AddRegistration (table : RegTable) (reg : DecoyRegistration) : RegTable :=
  table ++ [reg]

/-- The registration the ingest loop builds from a successful decode:
`regManager.NewRegistration(clientToStation, conjureKeys, flags)` at
src/application/main.go line 130, with `conjureKeys` from
`dd.generateKeys(sharedSecret)` at line 128 (whose error the code
ignores) and `flags` the never-written zero byte. -/
def decodedReg (r : DecodeOk) : DecoyRegistration :=
  NewRegistration r.clientToStationBytes ((generateKeys r.sharedSecret).getD []) r.flags

/-- One iteration of the ingest loop `get_zmq_updates`
(src/application/main.go lines 78-90) on a received message: decode via
`recieve_zmq_message`; on error leave the table unchanged (`continue`);
on success add the new registration only when `!newReg.PhantomIsLive()`. -/
def get_zmq_updates_step (table : RegTable) (msg : List Nat) : RegTable :=
  match recieve_zmq_message msg with
  | .shortMessage _ => table
  | .ok r =>
    let newReg := decodedReg r
    if PhantomIsLive table newReg then table else AddRegistration table newReg

/-- Modelled from the spec: `RegistrationManager.CheckRegistration` (in the
missing `./lib` package): "read-only lookup by destination address;
returns nil when no live registration matches" (§4.3). -/
def CheckRegistration (table : RegTable) (addr : List Nat) :
    Option DecoyRegistration :=
  table.find? fun r => r.phantomAddress = addr

/-- Modelled from the spec: the closed set of covert-protocol proxy handler
variants (§4.6, §9: "a closed set of tagged variants (one per supported
covert protocol)"). -/
inductive ProxyKind where
  | minimalProxy : ProxyKind
  | tlsProxy : ProxyKind
  deriving Repr, DecidableEq

/-- Modelled from the spec: `dd.ProxyFactory` (in the missing `./lib`
package): "select a proxy handler by protocol (a polymorphic dispatch over
handler variants keyed by registration flags/protocol id); an
unknown/unimplemented protocol id is a reportable configuration error,
not a crash" (§4.6) — i.e. the factory returns no handler (`nil`). -/
def ProxyFactory (reg : DecoyRegistration) (_conn : Nat) :
    Option ProxyKind :=
  match reg.Flags with
  | 0 => some .minimalProxy
  | 1 => some .tlsProxy
  | _ => none

/-- The inputs `handleNewConn` obtains from the accepted TCP connection:
the file descriptor of `clientConn.File()` (`none` models the error
branch) and the original destination recovered by `getOriginalDst`
(`none` models the socket-option failure branch). -/
structure ConnCtx where
  fd : Option Nat
  originalDst : Option (List Nat)
  deriving Repr, DecidableEq

/-- Embedding of `getOriginalDst` (src/application/main.go lines 18-29): recovery of
the pre-redirect destination via the `SO_ORIGINAL_DST` socket option; the
platform socket query itself is outside the embedding, so the recovered
address (or its failure) is carried by the connection context. -/
def getOriginalDst (conn : ConnCtx) : Option (List Nat) :=
  conn.originalDst

/-- Observable outcome of `handleNewConn`.  Every constructor corresponds
to a path on which the deferred `clientConn.Close()` runs, so every
outcome closes the connection; a proxy handler is invoked only in the
`handlerInvoked` case, which records the handler variant and its
arguments `(registration, client connection, original destination)`. -/
inductive ConnOutcome where
  | closedNoFd : ConnOutcome
  | closedNoOriginalDst : ConnOutcome
  | closedNoRegistration (dst : List Nat) : ConnOutcome
  | handlerInvoked (k : ProxyKind) (reg : DecoyRegistration)
      (conn : ConnCtx) (dst : List Nat) : ConnOutcome
  | closedUnknownProtocol : ConnOutcome
  deriving Repr, DecidableEq

/-- Embedding of `handleNewConn` (src/application/main.go lines 31-61):
get the fd, recover the original destination, look the destination up in
the registration table, and on a hit dispatch through `ProxyFactory`,
logging and returning (connection closed) when the factory yields no
handler. -/
def handleNewConn (table : RegTable) (conn : ConnCtx) : ConnOutcome :=
  match conn.fd with
  | none => .closedNoFd
  | some _ =>
    match getOriginalDst conn with
    | none => .closedNoOriginalDst
    | some originalDstIP =>
      match CheckRegistration table originalDstIP with
      | none => .closedNoRegistration originalDstIP
      | some reg =>
        match ProxyFactory reg 0 with
        | some proxyHandler => .handlerInvoked proxyHandler reg conn originalDstIP
        | none => .closedUnknownProtocol

/-- Embedding of `DetectorStats` (referenced by src/application/detector/main.go):
byte total and per-family packet counters. -/
structure DetectorStats where
  BytesTotal : Nat
  V4PacketCount : Nat
  V6PacketCount : Nat
  deriving Repr, DecidableEq

/-- A network-layer flow as exposed by gopacket's
`packet.NetworkLayer().NetworkFlow()`: raw and string renderings of the
source and destination endpoints. -/
structure Flow where
  srcRaw : List Nat
  dstRaw : List Nat
  srcStr : String
  dstStr : String
  deriving Repr, DecidableEq

/-- A captured frame as consumed by `handlePacket`: the optional network
layer (gopacket returns `nil` when the frame has none), the capture
length, the optional TCP layer carrying the destination port, and the
optional application-layer payload (`nil` when absent). -/
structure Packet where
  network : Option Flow
  captureLength : Nat
  tcp : Option Nat
  app : Option (List Nat)
  deriving Repr, DecidableEq

/-- Log lines the detector emits while handling one frame. -/
inductive LogEvent where
  | anomaly : LogEvent
  | tagConfirmed (src dst : String) : LogEvent
  | forwardLog (src dst : String) : LogEvent
  deriving Repr, DecidableEq

/-- How `handlePacket` disposes of a frame that did not panic. -/
inductive Outcome where
  | dropped : Outcome
  | noMatch : Outcome
  | forwarded : Outcome
  deriving Repr, DecidableEq

/-- The detector state `handlePacket` reads
(src/application/detector/main.go lines 19-44): the configured tag byte
strings, the injected `IsRegistered` callback — whose field declares its
parameters in the order `(src, dst string, dstPort uint16)` — and the
running stats. -/
structure Detector where
  Tags : List (List Nat)
  IsRegistered : String → String → Nat → Bool
  stats : DetectorStats

/-- Go `bytes.Contains(hay, needle)`: whether `needle` occurs as a
contiguous subsequence of `hay` (always true for the empty needle). -/
def containsSeq (hay needle : List Nat) : Bool :=
  decide (needle <:+: hay)

/-- Embedding of `checkForTags` (src/application/detector/main.go lines
122-130) given the tag list, the application payload (if any) and the
network flow strings.  For each configured tag the code calls
`packet.ApplicationLayer().Payload()`; when the frame has no application
layer that dereferences a nil interface and panics, modelled as `none`.
With no tags configured the loop body never runs and nothing is touched.
On a contained tag the code logs a confirmed sighting. -/
def checkForTags (tags : List (List Nat)) (app : Option (List Nat))
    (srcStr dstStr : String) : Option (List LogEvent) :=
  match tags with
  | [] => some []
  | _ :: _ =>
    match app with
    | none => none
    | some payload =>
      some ((tags.filter fun tag => containsSeq payload tag).map
        fun _ => LogEvent.tagConfirmed srcStr dstStr)

/-- The classification switch of `handlePacket`
(src/application/detector/main.go lines 97-104): bump the per-family
packet counter when the raw destination address is 4 or 16 bytes long,
otherwise log the frame as anomalous; returns the updated stats and the
log lines emitted. -/
def classify (stats : DetectorStats) (dstRaw : List Nat) :
    DetectorStats × List LogEvent :=
  if dstRaw.length = 4 then
    ({ stats with V4PacketCount := stats.V4PacketCount + 1 }, [])
  else if dstRaw.length = 16 then
    ({ stats with V6PacketCount := stats.V6PacketCount + 1 }, [])
  else
    (stats, [LogEvent.anomaly])

/-- The pipeline stages of `handlePacket` after classification
(src/application/detector/main.go lines 106-117): drop frames without a
TCP layer, run `checkForTags` (which may panic, `none`), then evaluate
the match check — the call site passes `dst.String()` first and
`src.String()` second — and forward on a match.  The result carries the
final stats, emitted log lines and the frame's disposition; `none` is a
panic. -/
def afterClassify (det : Detector) (pkt : Packet) (flow : Flow)
    (stats : DetectorStats) (logs : List LogEvent) :
    Option (DetectorStats × List LogEvent × Outcome) :=
  match pkt.tcp with
  | none => some (stats, logs, .dropped)
  | some dstPort =>
    match checkForTags det.Tags pkt.app flow.srcStr flow.dstStr with
    | none => none
    | some tagLogs =>
      if det.IsRegistered flow.dstStr flow.srcStr dstPort then
        some (stats, logs ++ tagLogs ++ [.forwardLog flow.srcStr flow.dstStr],
          .forwarded)
      else
        some (stats, logs ++ tagLogs, .noMatch)

/-- Embedding of `handlePacket` (src/application/detector/main.go lines
91-118).  The code first calls `packet.NetworkLayer().NetworkFlow()`;
when the frame has no network layer, `NetworkLayer()` is nil and the
call panics — modelled as `none`.  Otherwise the byte total is bumped by
the capture length, the frame is classified, and the remaining stages
run. -/
def handlePacket (det : Detector) (pkt : Packet) :
    Option (DetectorStats × List LogEvent × Outcome) :=
  match pkt.network with
  | none => none
  | some flow =>
    let stats1 := { det.stats with
      BytesTotal := det.stats.BytesTotal + pkt.captureLength }
    let cl := classify stats1 flow.dstRaw
    afterClassify det pkt flow cl.1 cl.2

/-- The disposition component of a `handlePacket` result. -/
def outcomeOf (r : Option (DetectorStats × List LogEvent × Outcome)) :
    Option Outcome :=
  r.map fun x => x.2.2

/-- Embedding of `generateFilters`
(src/application/detector/main.go lines 140-152): empty filter list gives
the empty filter; otherwise `"tcp and not src "` plus the first address,
then `" and not src "` plus each remaining address, accumulated in
order. -/
def generateFilters (filterList : List String) : String :=
  match filterList with
  | [] => ""
  | first :: rest =>
    rest.foldl (fun out entry => out ++ " and not src " ++ entry)
      ("tcp and not src " ++ first)

/-- Concatenation of `" and not src "` + each address, in order (spec-side
helper for `filtersSpec`). -/
def suffixSpec : List String → String
  | [] => ""
  | e :: l => " and not src " ++ e ++ suffixSpec l

/-- The spec-side description of the filter string, written from the
claim's words for comparison with `generateFilters`: `"tcp and not src "`
+ first address followed by the concatenation, in order, of
`" and not src "` + each remaining address. -/
def filtersSpec : List String → String
  | [] => ""
  | first :: rest => "tcp and not src " ++ first ++ suffixSpec rest

/-! Concrete inputs used to evaluate the definitions. -/

/-- A 70-byte message passing the initial length check: secret block
`0..31`, fixed block `[0, 2, 0, 0, 0, 0]` (declared payload length 2),
intended flags byte `99` at offset 38, then 31 further payload bytes. -/
def msgC1 : List Nat :=
  List.range 32 ++ [0, 2, 0, 0, 0, 0] ++ 99 :: List.replicate 31 7

/-- A 55-byte message whose fixed block declares a payload length of
`3 * 256 + 232 = 1000`, far more than the 17 bytes that follow the fixed
fields. -/
def msgC3 : List Nat :=
  List.replicate 32 1 ++ [3, 232, 0, 0, 0, 0] ++ List.replicate 17 5

/-- A well-formed 55-byte message: secret block of 9s, declared payload
length 4, and 17 trailing bytes of 3s. -/
def msgB : List Nat :=
  List.replicate 32 9 ++ [0, 4, 0, 0, 0, 0] ++ List.replicate 17 3

/-- The record `recieve_zmq_message` produces for `msgB`. -/
def regB : DecodeOk :=
  ⟨List.replicate 17 3 ++ List.replicate 15 9, 4, [0, 0, 0, 0], 0⟩

/-- A live registration occupying phantom address 10.0.0.5. -/
def regW : DecoyRegistration :=
  { phantomAddress := [10, 0, 0, 5]
    Covert := [101, 120]
    Mask := []
    Flags := 0
    derivedKeys := [1, 2, 3] }

/-- A registration whose flags select no implemented proxy protocol. -/
def regBadProto : DecoyRegistration :=
  { phantomAddress := [10, 0, 0, 6]
    Covert := []
    Mask := []
    Flags := 9
    derivedKeys := [] }

/-- An accepted connection whose recovered original destination is
10.0.0.5. -/
def connW : ConnCtx := { fd := some 3, originalDst := some [10, 0, 0, 5] }

/-- An accepted connection redirected from the unregistered destination
10.9.9.9. -/
def connMiss : ConnCtx := { fd := some 4, originalDst := some [10, 9, 9, 9] }

/-- A detector with no tags configured and empty stats. -/
def detPlain : Detector :=
  { Tags := [], IsRegistered := fun _ _ _ => true, stats := ⟨0, 0, 0⟩ }

/-- A detector with one configured tag. -/
def detTagged : Detector :=
  { Tags := [[99]], IsRegistered := fun _ _ _ => true, stats := ⟨0, 0, 0⟩ }

/-- A detector whose callback tests its first (declared `src`)
parameter against the string "B". -/
def detFirstArg : Detector :=
  { Tags := [], IsRegistered := fun s _ _ => s == "B", stats := ⟨0, 0, 0⟩ }

/-- A detector with non-empty running stats and a callback that never
matches. -/
def detStats : Detector :=
  { Tags := [], IsRegistered := fun _ _ _ => false, stats := ⟨100, 7, 8⟩ }

/-- An IPv4 flow from 192.168.0.1 to 10.0.0.5. -/
def flowV4 : Flow :=
  ⟨[192, 168, 0, 1], [10, 0, 0, 5], "192.168.0.1", "10.0.0.5"⟩

/-- A flow whose source renders as "A" and destination as "B". -/
def flowAB : Flow := ⟨[1, 1, 1, 1], [2, 2, 2, 2], "A", "B"⟩

/-- A flow whose destination address is 6 bytes long — neither IPv4 nor
IPv6 (spec scenario D). -/
def flowBadLen : Flow :=
  ⟨[1, 2, 3, 4], [1, 2, 3, 4, 5, 6], "1.2.3.4", "01:02:03:04:05:06"⟩

/-- A captured frame without a network layer. -/
def pktNoNetwork : Packet :=
  { network := none, captureLength := 64, tcp := some 443, app := some [1] }

/-- A TCP frame with a network layer but no application-layer payload. -/
def pktNoApp : Packet :=
  { network := some flowV4, captureLength := 64, tcp := some 443, app := none }

/-- A TCP frame on the flow rendering as "A" → "B". -/
def pktAB : Packet :=
  { network := some flowAB, captureLength := 10, tcp := some 443, app := none }

/-- A TCP frame whose destination address is 6 bytes long. -/
def pktBadLen : Packet :=
  { network := some flowBadLen, captureLength := 33, tcp := some 80, app := none }

/-! Claim theorems. -/

/-- C1 (code bug): evaluated at the concrete 70-byte message `msgC1`,
which passes the initial length check, the decode path does NOT keep the
first 32 bytes as the shared secret — the third `Read` on
src/application/main.go line 116 targets `sharedSecret[:]` again and
overwrites it with the bytes starting at offset 38 — and the flags byte at
offset 38 (value 99) is never read, the `flags` buffer keeping its zero
value.  Key derivation is therefore applied to the overwritten bytes, not
to the first 32 bytes as the claim states. -/
theorem c1_secret_overwritten_flags_unread :
    recieve_zmq_message msgC1 =
      .ok ⟨99 :: List.replicate 31 7, 2, [0, 0], 0⟩ ∧
    msgC1.take 32 = List.range 32 ∧
    (recieve_zmq_message msgC1).secret ≠ msgC1.take 32 ∧
    (recieve_zmq_message msgC1).secret = msgC1.drop 38 ∧
    msgC1.getD 38 0 = 99 ∧
    (recieve_zmq_message msgC1).flagsOut = 0 := by
  refine ⟨by decide, by decide, by decide, by decide, by decide, by decide⟩

/-- C3 (code bug): evaluated at the concrete 55-byte message `msgC3`,
whose big-endian payload-length field declares 1000 bytes while only 17
bytes remain in the buffer (indeed the declared length exceeds the whole
message), decode does not fail with `ShortMessage`: the declared length is
never bounds-checked against the buffer, the payload read is silently
truncated, and decoding succeeds. -/
theorem c3_no_payload_length_check :
    msgC3.length = 55 ∧
    (recieve_zmq_message msgC3).vsp = 1000 ∧
    msgC3.length < (recieve_zmq_message msgC3).vsp ∧
    (recieve_zmq_message msgC3).isShort = false := by
  refine ⟨by decide, by decide, by decide, by decide⟩

/-- C4 (code bug): `handlePacket` is not total on the frames the capture
source can deliver.  A frame without a network layer makes
`packet.NetworkLayer().NetworkFlow()` dereference a nil interface
(modelled as `none` = panic), and with a tag configured a TCP frame
without an application-layer payload makes
`packet.ApplicationLayer().Payload()` in `checkForTags` do the same, so a
single captured frame can terminate the capture loop. -/
theorem c4_handlePacket_panics :
    handlePacket detPlain pktNoNetwork = none ∧
    handlePacket detTagged pktNoApp = none :=
  ⟨rfl, rfl⟩

/-- C6 counterexample: a 40-byte message is not shorter than 39 bytes,
yet the initial length check of the decode path still rejects it with
`ShortMessage`, refuting the claimed 39-byte threshold ("every message of
at least 39 bytes proceeds past that initial length rejection"). -/
theorem c6_forty_byte_message_rejected :
    39 ≤ (List.replicate 40 0).length ∧
    (recieve_zmq_message (List.replicate 40 0)).isShort = true := by
  refine ⟨by decide, by decide⟩

/-- C6 (amended): the initial pre-read length check rejects a message
with `ShortMessage` if and only if it is shorter than
`32 + 6 + 1 + 16 = 55` bytes; every message of at least 55 bytes proceeds
past the initial rejection (line 107 of src/application/main.go compares
against `32 + 6 + 1 + 16`, not `32 + 6 + 1`). -/
theorem c6_initial_length_threshold (msg : List Nat) :
    (recieve_zmq_message msg).isShort = true ↔ msg.length < 55 := by
  by_cases h : msg.length < 32 + 6 + 1 + 16
  · rw [recieve_zmq_message, if_pos h]
    exact iff_of_true rfl (by omega)
  · rw [recieve_zmq_message, if_neg h]
    exact iff_of_false (by simp [DecodeResult.isShort]) (by omega)

/-- C7: every message of at most 39 bytes — in particular any message
shorter than the 39-byte minimum fixed-header length and the 39-byte
message of spec scenario A — is rejected by the decode path with
`ShortMessage` (the reads never leave the received buffer), and the
ingest-loop iteration leaves the registration table unchanged. -/
theorem c7_short_message_table_unchanged (msg : List Nat) (table : RegTable)
    (h : msg.length ≤ 39) :
    (recieve_zmq_message msg).isShort = true ∧
    get_zmq_updates_step table msg = table := by
  have hlt : msg.length < 32 + 6 + 1 + 16 := by omega
  constructor
  · rw [recieve_zmq_message, if_pos hlt]
    rfl
  · rw [get_zmq_updates_step, recieve_zmq_message, if_pos hlt]

/-- C7 witness: the 39-byte all-zero message of spec scenario A is
rejected as short and leaves a one-entry registration table unchanged. -/
theorem c7_witness :
    (recieve_zmq_message (List.replicate 39 0)).isShort = true ∧
    get_zmq_updates_step [regW] (List.replicate 39 0) = [regW] :=
  c7_short_message_table_unchanged (List.replicate 39 0) [regW] (by decide)

/-- C2: in the ingest loop, a decoded registration is admitted only when
its phantom address is not currently live: when the address is free, the
iteration appends exactly one entry to the table, and processing the same
well-formed message again before expiry (so the address is now live)
leaves the table unchanged. -/
theorem c2_duplicate_phantom_dropped (table : RegTable) (msg : List Nat)
    (r : DecodeOk) (hok : recieve_zmq_message msg = .ok r)
    (hlive : PhantomIsLive table (decodedReg r) = false) :
    get_zmq_updates_step table msg = table ++ [decodedReg r] ∧
    (get_zmq_updates_step table msg).length = table.length + 1 ∧
    get_zmq_updates_step (get_zmq_updates_step table msg) msg =
      get_zmq_updates_step table msg := by
  have h1 : get_zmq_updates_step table msg = table ++ [decodedReg r] := by
    rw [get_zmq_updates_step, hok]
    simp [hlive, AddRegistration]
  have hlive2 : PhantomIsLive (table ++ [decodedReg r]) (decodedReg r) = true := by
    simp [PhantomIsLive]
  refine ⟨h1, by simp [h1], ?_⟩
  rw [h1, get_zmq_updates_step, hok]
  simp [hlive2]

/-- C2 witness: ingesting the well-formed message `msgB` into an empty
table adds exactly one registration, and ingesting the identical message
again leaves the table unchanged. -/
theorem c2_witness :
    get_zmq_updates_step ([] : RegTable) msgB = [] ++ [decodedReg regB] ∧
    (get_zmq_updates_step ([] : RegTable) msgB).length =
      ([] : RegTable).length + 1 ∧
    get_zmq_updates_step (get_zmq_updates_step ([] : RegTable) msgB) msgB =
      get_zmq_updates_step ([] : RegTable) msgB :=
  c2_duplicate_phantom_dropped [] msgB regB (by decide) (by decide)

/-- C5: for every accepted connection whose fd and original destination
are recovered, `handleNewConn` closes the connection with no proxy
handler invoked when the destination has no live registration; on a hit
it invokes the handler `ProxyFactory` selects from the registration's
flags, passing (registration, client connection, original destination);
and when the protocol id is unknown or unimplemented it logs and closes
the connection (every `ConnOutcome` closes the connection — the function
is total, never a crash). -/
theorem c5_dispatch_by_registration (table : RegTable) (conn : ConnCtx)
    (fd : Nat) (dst : List Nat)
    (hfd : conn.fd = some fd) (hdst : conn.originalDst = some dst) :
    (CheckRegistration table dst = none →
      handleNewConn table conn = .closedNoRegistration dst) ∧
    ∀ reg, CheckRegistration table dst = some reg →
      (∀ k, ProxyFactory reg 0 = some k →
        handleNewConn table conn = .handlerInvoked k reg conn dst) ∧
      (ProxyFactory reg 0 = none →
        handleNewConn table conn = .closedUnknownProtocol) := by
  have hred : handleNewConn table conn =
      (match CheckRegistration table dst with
       | none => .closedNoRegistration dst
       | some reg =>
         match ProxyFactory reg 0 with
         | some k => .handlerInvoked k reg conn dst
         | none => .closedUnknownProtocol) := by
    rw [handleNewConn, getOriginalDst, hfd, hdst]
  constructor
  · intro h
    rw [hred, h]
  · intro reg hreg
    constructor
    · intro k hk
      simp only [hred, hreg, hk]
    · intro hk
      simp only [hred, hreg, hk]

/-- C5 witness: with the table holding the registration for phantom
10.0.0.5, the connection redirected from 10.0.0.5 is dispatched to the
handler selected from the registration's flags with the full argument
triple, and the unregistered destination would be closed with no
handler. -/
theorem c5_witness :
    (CheckRegistration [regW] [10, 0, 0, 5] = none →
      handleNewConn [regW] connW = .closedNoRegistration [10, 0, 0, 5]) ∧
    ∀ reg, CheckRegistration [regW] [10, 0, 0, 5] = some reg →
      (∀ k, ProxyFactory reg 0 = some k →
        handleNewConn [regW] connW = .handlerInvoked k reg connW [10, 0, 0, 5]) ∧
      (ProxyFactory reg 0 = none →
        handleNewConn [regW] connW = .closedUnknownProtocol) :=
  c5_dispatch_by_registration [regW] connW 3 [10, 0, 0, 5] rfl rfl

/-- Reduction of `handlePacket` on a frame with a network layer: the
stats are bumped by the capture length, the frame is classified, and the
remaining stages run on the result. -/
theorem handlePacket_eq (det : Detector) (pkt : Packet) (flow : Flow)
    (h1 : pkt.network = some flow) :
    handlePacket det pkt =
      afterClassify det pkt flow
        (classify { det.stats with
          BytesTotal := det.stats.BytesTotal + pkt.captureLength } flow.dstRaw).1
        (classify { det.stats with
          BytesTotal := det.stats.BytesTotal + pkt.captureLength } flow.dstRaw).2 := by
  rw [handlePacket, h1]

/-- C8: a captured frame (with a network layer) whose destination address
is neither 4 nor 16 bytes long increments neither the v4 nor the v6
packet counter; the byte total is still bumped by the capture length, the
anomaly log line is emitted, and `handlePacket` still hands the frame to
the stages after classification. -/
theorem c8_invalid_family_counted_nowhere (det : Detector) (pkt : Packet)
    (flow : Flow) (h1 : pkt.network = some flow)
    (h4 : flow.dstRaw.length ≠ 4) (h16 : flow.dstRaw.length ≠ 16) :
    classify { det.stats with
        BytesTotal := det.stats.BytesTotal + pkt.captureLength } flow.dstRaw =
      ({ det.stats with
        BytesTotal := det.stats.BytesTotal + pkt.captureLength },
        [LogEvent.anomaly]) ∧
    (classify { det.stats with
        BytesTotal := det.stats.BytesTotal + pkt.captureLength }
        flow.dstRaw).1.V4PacketCount = det.stats.V4PacketCount ∧
    (classify { det.stats with
        BytesTotal := det.stats.BytesTotal + pkt.captureLength }
        flow.dstRaw).1.V6PacketCount = det.stats.V6PacketCount ∧
    (classify { det.stats with
        BytesTotal := det.stats.BytesTotal + pkt.captureLength }
        flow.dstRaw).1.BytesTotal =
      det.stats.BytesTotal + pkt.captureLength ∧
    handlePacket det pkt =
      afterClassify det pkt flow
        { det.stats with
          BytesTotal := det.stats.BytesTotal + pkt.captureLength }
        [LogEvent.anomaly] := by
  have hcl : classify { det.stats with
      BytesTotal := det.stats.BytesTotal + pkt.captureLength } flow.dstRaw =
      ({ det.stats with
        BytesTotal := det.stats.BytesTotal + pkt.captureLength },
        [LogEvent.anomaly]) := by
    rw [classify, if_neg h4, if_neg h16]
  refine ⟨hcl, by rw [hcl], by rw [hcl], by rw [hcl], ?_⟩
  rw [handlePacket_eq det pkt flow h1, hcl]

/-- C8 witness: spec scenario D — a 33-byte frame with a 6-byte
destination address, against running stats (100, 7, 8), leaves both
packet counters at 7 and 8, bumps the byte total to 133, logs the
anomaly, and still reaches the post-classification stages. -/
theorem c8_witness :
    classify ⟨133, 7, 8⟩ flowBadLen.dstRaw = (⟨133, 7, 8⟩, [LogEvent.anomaly]) ∧
    (classify ⟨133, 7, 8⟩ flowBadLen.dstRaw).1.V4PacketCount =
      detStats.stats.V4PacketCount ∧
    (classify ⟨133, 7, 8⟩ flowBadLen.dstRaw).1.V6PacketCount =
      detStats.stats.V6PacketCount ∧
    (classify ⟨133, 7, 8⟩ flowBadLen.dstRaw).1.BytesTotal =
      detStats.stats.BytesTotal + pktBadLen.captureLength ∧
    handlePacket detStats pktBadLen =
      afterClassify detStats pktBadLen flowBadLen ⟨133, 7, 8⟩
        [LogEvent.anomaly] :=
  c8_invalid_family_counted_nowhere detStats pktBadLen flowBadLen rfl
    (by decide) (by decide)

/-- C9: on every frame that reaches the match check, the call site of the
`IsRegistered` callback passes the frame's destination string as the
first argument and the source string as the second — transposed relative
to the field's declared parameter order `(src, dst, dstPort)` — so the
frame is forwarded exactly when the callback, applied destination-first,
returns true. -/
theorem c9_match_check_transposed (det : Detector) (pkt : Packet)
    (flow : Flow) (dstPort : Nat) (tagLogs : List LogEvent)
    (h1 : pkt.network = some flow) (h2 : pkt.tcp = some dstPort)
    (h3 : checkForTags det.Tags pkt.app flow.srcStr flow.dstStr = some tagLogs) :
    outcomeOf (handlePacket det pkt) =
      some (if det.IsRegistered flow.dstStr flow.srcStr dstPort
            then Outcome.forwarded else Outcome.noMatch) := by
  rw [handlePacket_eq det pkt flow h1]
  simp only [afterClassify, h2, h3]
  cases hb : det.IsRegistered flow.dstStr flow.srcStr dstPort <;>
    simp [outcomeOf, hb]

/-- C9 witness: a detector whose callback tests its first (declared
`src`) parameter for "B" forwards the frame whose source renders as "A"
and destination as "B": the callback is evaluated destination-first. -/
theorem c9_witness :
    outcomeOf (handlePacket detFirstArg pktAB) =
      some (if detFirstArg.IsRegistered "B" "A" 443
            then Outcome.forwarded else Outcome.noMatch) :=
  c9_match_check_transposed detFirstArg pktAB flowAB 443 [] rfl rfl rfl

/-- Folding the filter-suffix accumulation from any initial string equals
appending the spec-side suffix concatenation. -/
theorem foldl_suffixSpec (l : List String) (init : String) :
    l.foldl (fun out entry => out ++ " and not src " ++ entry) init =
      init ++ suffixSpec l := by
  induction l generalizing init with
  | nil => simp [suffixSpec]
  | cons e t ih =>
    rw [List.foldl_cons, ih]
    simp only [suffixSpec]
    simp [String.append_assoc]

/-- C10: `generateFilters` returns the empty string for an empty
exclusion list (no capture filter at all), and for a non-empty list
returns exactly `"tcp and not src "` + first address followed by
`" and not src "` + each remaining address in order (`filtersSpec`), so
capture is restricted to TCP plus the configured source exclusions. -/
theorem c10_generateFilters_exact :
    generateFilters [] = "" ∧
    ∀ filterList : List String,
      generateFilters filterList = filtersSpec filterList := by
  refine ⟨rfl, ?_⟩
  intro l
  cases l with
  | nil => rfl
  | cons a t =>
    have hgen : generateFilters (a :: t) =
        t.foldl (fun out entry => out ++ " and not src " ++ entry)
          ("tcp and not src " ++ a) := rfl
    rw [hgen, foldl_suffixSpec]
    rfl

end Conjure
